import Mathlib

/-
Verification of the portablesource environment-provisioning engine.

Shallow embedding of the Rust sources:
  src/installer/pip_manager.rs   (requirements parsing and installation planning)
  src/config.rs                  (GPU configuration and backend decision table)
  src/gpu.rs                     (GPU detection)
  src/envs_manager.rs            (resumable downloads, portable-tool installation)
  src/repository_installer.rs    (repository lifecycle: clone/update/corruption recovery)

Pure string manipulation mirrors the Rust standard library operations used by
the sources; effectful code (processes, network, filesystem) is embedded as
functions over explicit oracle/state records that enumerate the outcomes of the
side-effecting sub-steps, together with event traces recording which external
actions were performed.
-/

/-! ### String helpers mirroring the Rust std operations used by the sources -/

/-- Character-list prefix test, mirroring str pattern matching at one offset. -/
def isPref : List Char → List Char → Bool
  | [], _ => true
  | _ :: _, [] => false
  | a :: as, b :: bs => a == b && isPref as bs

/-- Substring search on character lists: does the needle occur anywhere in the
haystack (Rust str::contains semantics)? -/
def subList (need : List Char) : List Char → Bool
  | [] => need.isEmpty
  | b :: bs => isPref need (b :: bs) || subList need bs

/-- Rust str::contains: the pattern occurs as a contiguous substring of the
haystack. -/
def subStr (hay pat : String) : Bool := subList pat.data hay.data

/-- Rust str::to_uppercase restricted to the ASCII device/package names the
sources handle; implemented structurally so that terms evaluate. -/
def upStr (s : String) : String := String.mk (s.data.map Char.toUpper)

/-- Rust str::to_lowercase restricted to ASCII. -/
def lowStr (s : String) : String := String.mk (s.data.map Char.toLower)

/-- Rust str::trim: strip whitespace from both ends. -/
def trimStr (s : String) : String :=
  let l := s.data.dropWhile Char.isWhitespace
  String.mk ((l.reverse.dropWhile Char.isWhitespace).reverse)

/-- Is the string empty? -/
def isEmptyStr (s : String) : Bool := s.data.isEmpty

/-- Rust str::starts_with. -/
def startsWithStr (s pre : String) : Bool := isPref pre.data s.data

/-- First segment of line.split given a separator character:
mirrors line.split(sep).next().unwrap_or(""). -/
def splitFirst (sep : Char) (s : String) : String :=
  String.mk (s.data.takeWhile (fun c => !(c == sep)))

/-- Accumulatorised character split. -/
def splitCharAux (sep : Char) : List Char → List Char → List (List Char)
  | [], acc => [acc.reverse]
  | c :: rest, acc =>
    if c == sep then acc.reverse :: splitCharAux sep rest []
    else splitCharAux sep rest (c :: acc)

/-- Rust str::split on a single separator character, yielding the (always
non-empty) list of segments. -/
def splitChar (sep : Char) (s : String) : List String :=
  (splitCharAux sep s.data []).map String.mk

/-- Fuelled worker for replaceAll; the fuel is the haystack length, and each
step consumes at least one character. -/
def replaceFuel (need rep : List Char) : Nat → List Char → List Char
  | 0, s => s
  | _ + 1, [] => []
  | fuel + 1, h :: t =>
    if isPref need (h :: t) && !need.isEmpty then
      rep ++ replaceFuel need rep fuel (List.drop (need.length - 1) t)
    else h :: replaceFuel need rep fuel t

/-- Rust str::replace for a non-empty needle: replace every non-overlapping
occurrence, left to right. -/
def replaceAll (s need rep : String) : String :=
  String.mk (replaceFuel need.data rep.data s.data.length s.data)

/-- The version-operator characters trimmed by parse_requirement_line. -/
def verChars : List Char := ['=', '>', '<', '!', '~']

/-- Rust trim_matches over the version-operator character set: removes all
leading and trailing characters from the set. -/
def trimMatchesVer (s : String) : String :=
  let l := s.data.dropWhile (fun c => verChars.contains c)
  String.mk ((l.reverse.dropWhile (fun c => verChars.contains c)).reverse)

/-- Digit-accumulator for parseU32. -/
def digitsValAux : List Char → Nat → Option Nat
  | [], acc => some acc
  | c :: rest, acc =>
    if c.isDigit then digitsValAux rest (acc * 10 + (c.toNat - 48)) else none

/-- Rust str::parse::<u32>: optional leading plus sign, at least one digit,
all digits, value below 2^32. -/
def parseU32 (s : String) : Option Nat :=
  let cs := match s.data with
    | '+' :: rest => rest
    | cs => cs
  match cs with
  | [] => none
  | _ =>
    match digitsValAux cs 0 with
    | some v => if v < 4294967296 then some v else none
    | none => none

/-! ### Error type (src/error.rs, constructors used by the embedded code) -/

/-- Error values produced by the embedded operations, mirroring the
PortableSourceError constructors the sources use on these paths. -/
inductive PSError where
  | repository (msg : String)
  | environment (msg : String)
  | installation (msg : String)
  | gpuDetection (msg : String)
  | command (msg : String)
deriving DecidableEq

/-- The display text of an error, as matched by e.to_string().contains(..)
in clone_or_update_repository. -/
def errText : PSError → String
  | .repository m => m
  | .environment m => m
  | .installation m => m
  | .gpuDetection m => m
  | .command m => m

/-! ### src/config.rs: GPU generations, CUDA versions, decision table -/

/-- GpuGeneration (src/config.rs). -/
inductive GpuGeneration where
  | pascal | turing | ampere | adaLovelace | blackwell | unknown
deriving DecidableEq

/-- CudaVersion (src/config.rs), the Windows-facing CUDA releases. -/
inductive CudaVersion where
  | cuda118 | cuda124 | cuda128
deriving DecidableEq

/-- Modelled from the spec: CudaVersionLinux is referenced by
src/installer/pip_manager.rs and src/main.rs but its definition is not under
src/.  The spec lists the supported torch index URLs cu118/cu121/cu124/cu126
and the nightly cu128, and every match in the sources enumerates exactly these
five variants. -/
inductive CudaVersionLinux where
  | cuda118 | cuda121 | cuda124 | cuda126 | cuda128
deriving DecidableEq

/-- The Debug formatting of GpuGeneration variants, as produced by
format!("{:?}", gpu_generation) in the sources (derived Debug prints the
variant identifier). -/
def genDebugStr : GpuGeneration → String
  | .pascal => "Pascal"
  | .turing => "Turing"
  | .ampere => "Ampere"
  | .adaLovelace => "AdaLovelace"
  | .blackwell => "Blackwell"
  | .unknown => "Unknown"

/-- The name-pattern table built in ConfigManager::new (src/config.rs). -/
def gpu_patterns : GpuGeneration → List String
  | .pascal => ["GTX 10", "GTX 1050", "GTX 1060", "GTX 1070", "GTX 1080",
      "TITAN X", "TITAN XP"]
  | .turing => ["GTX 16", "GTX 1650", "GTX 1660",
      "RTX 20", "RTX 2060", "RTX 2070", "RTX 2080", "TITAN RTX"]
  | .ampere => ["RTX 30", "RTX 3060", "RTX 3070", "RTX 3080", "RTX 3090",
      "RTX A", "A40", "A100"]
  | .adaLovelace => ["RTX 40", "RTX 4060", "RTX 4070", "RTX 4080", "RTX 4090",
      "RTX ADA", "L40", "L4"]
  | .blackwell => ["RTX 50", "RTX 5060", "RTX 5070", "RTX 5080", "RTX 5090"]
  | .unknown => []

/-- Does the upper-cased device name match some pattern of a generation
(src/config.rs detect_gpu_generation inner loop)? -/
def matchesGeneration (up : String) (g : GpuGeneration) : Bool :=
  (gpu_patterns g).any (fun pat => subStr up (upStr pat))

/-- ConfigManager::detect_gpu_generation.  The Rust source iterates a HashMap
whose iteration order is unspecified; this embedding fixes the insertion order
Pascal, Turing, Ampere, AdaLovelace, Blackwell, which is observationally
equivalent for every name matching the patterns of at most one generation. -/
def detect_gpu_generation (gpuName : String) : GpuGeneration :=
  if matchesGeneration (upStr gpuName) .pascal then .pascal
  else if matchesGeneration (upStr gpuName) .turing then .turing
  else if matchesGeneration (upStr gpuName) .ampere then .ampere
  else if matchesGeneration (upStr gpuName) .adaLovelace then .adaLovelace
  else if matchesGeneration (upStr gpuName) .blackwell then .blackwell
  else .unknown

/-- The generation-to-CUDA-release table built in ConfigManager::new. -/
def cuda_mapping : GpuGeneration → Option CudaVersion
  | .pascal => some .cuda118
  | .turing => some .cuda124
  | .ampere => some .cuda124
  | .adaLovelace => some .cuda128
  | .blackwell => some .cuda128
  | .unknown => none

/-- ConfigManager::get_compute_capability. -/
def get_compute_capability : GpuGeneration → String
  | .pascal => "6.1"
  | .turing => "7.5"
  | .ampere => "8.6"
  | .adaLovelace => "8.9"
  | .blackwell => "9.0"
  | .unknown => "5.0"

/-- GpuConfig (src/config.rs).  cuda_paths is reduced to whether the
CudaPaths record was constructed (it is purely derived from the install
path). -/
structure GpuConfig where
  name : String
  generation : GpuGeneration
  cuda_version : Option CudaVersion
  cuda_paths_set : Bool
  compute_capability : String
  memory_gb : Nat
  recommended_backend : String
  supports_tensorrt : Bool
deriving DecidableEq

/-- Nvidia-name test of ConfigManager::configure_gpu. -/
def is_nvidia_gpu_name (up : String) : Bool :=
  subStr up "NVIDIA" || subStr up "GEFORCE" || subStr up "QUADRO" ||
  subStr up "TESLA" || subStr up "RTX" || subStr up "GTX"

/-- Amd-name test of ConfigManager::configure_gpu. -/
def is_amd_gpu_name (up : String) : Bool :=
  subStr up "AMD" || subStr up "RADEON" || subStr up "RX "

/-- Intel-name test of ConfigManager::configure_gpu. -/
def is_intel_gpu_name (up : String) : Bool :=
  subStr up "INTEL" || subStr up "UHD" || subStr up "IRIS" || subStr up "ARC"

/-- ConfigManager::configure_gpu (src/config.rs).  installPathSet embeds
whether self.config.install_path is non-empty (it only decides whether
CudaPaths is constructed). -/
def configure_gpu (installPathSet : Bool) (gpuName : String)
    (memoryGb : Nat) : GpuConfig :=
  let generation := detect_gpu_generation gpuName
  let cudaVersion := cuda_mapping generation
  let computeCapability := get_compute_capability generation
  let up := upStr gpuName
  let bt :=
    if is_nvidia_gpu_name up then
      if generation = .unknown then ("cpu", false)
      else
        match cudaVersion with
        | some cv =>
          if (cv = .cuda124 || cv = .cuda128) &&
             (generation = .turing || generation = .ampere ||
              generation = .adaLovelace || generation = .blackwell) then
            ("cuda,tensorrt", true)
          else ("cuda", false)
        | none => ("cpu", false)
    else if is_amd_gpu_name up then ("dml", false)
    else if is_intel_gpu_name up then ("openvino", false)
    else ("cpu", false)
  { name := gpuName
    generation := generation
    cuda_version := cudaVersion
    cuda_paths_set := cudaVersion.isSome && installPathSet
    compute_capability := computeCapability
    memory_gb := memoryGb
    recommended_backend := bt.1
    supports_tensorrt := bt.2 }

/-- The configuration state consulted by the planner: the detected GPU
configuration, if any (PortableSourceConfig.gpu_config). -/
structure ConfigState where
  gpuConfig : Option GpuConfig
deriving DecidableEq

/-- Modelled from the spec: ConfigManager::has_cuda is called by
src/installer/pip_manager.rs but not defined under src/.  The spec says a
profile carries an optional recommended CUDA runtime version and that CUDA-
specific behaviour applies when one is resolved, so has_cuda holds when the
stored GPU configuration resolved a CUDA version. -/
def has_cuda (cfg : ConfigState) : Bool :=
  match cfg.gpuConfig with
  | some g => g.cuda_version.isSome
  | none => false

/-- Modelled from the spec: ConfigManager::get_gpu_name is called by
src/installer/pip_manager.rs but not defined under src/.  It returns the
stored device name of the accelerator profile, empty when none is
configured. -/
def get_gpu_name (cfg : ConfigState) : String :=
  match cfg.gpuConfig with
  | some g => g.name
  | none => ""

/-- Modelled from the spec: ConfigManager::get_cuda_version is called by
src/installer/pip_manager.rs but not defined under src/.  It returns the
resolved CUDA runtime version of the profile, if any. -/
def get_cuda_version (cfg : ConfigState) : Option CudaVersion :=
  match cfg.gpuConfig with
  | some g => g.cuda_version
  | none => none

/-- Modelled from the spec: ConfigManager::detect_current_gpu_generation is
called by src/installer/pip_manager.rs but not defined under src/.  It
re-derives the architecture generation of the currently configured device
name through the fixed pattern table. -/
def detect_current_gpu_generation (cfg : ConfigState) : GpuGeneration :=
  detect_gpu_generation (get_gpu_name cfg)

/-! ### src/installer/pip_manager.rs: requirements parsing and planning -/

/-- PackageType (src/installer/pip_manager.rs). -/
inductive PackageType where
  | regular | torch | onnxruntime | insightface | triton
deriving DecidableEq

/-- PackageInfo (src/installer/pip_manager.rs). -/
structure PackageInfo where
  name : String
  version : Option String
  extras : Option (List String)
  package_type : PackageType
  original_line : String
deriving DecidableEq

/-- The fixed torch-family package-name set of parse_requirement_line. -/
def torchNames : List String :=
  ["torch", "torchvision", "torchaudio", "torchtext", "torchdata"]

/-- The name-classification match of parse_requirement_line. -/
def classifyPackage (lname : String) : PackageType :=
  if torchNames.contains lname then .torch
  else if startsWithStr lname "onnxruntime" then .onnxruntime
  else if startsWithStr lname "insightface" then .insightface
  else if startsWithStr lname "triton" then .triton
  else .regular

/-- The discard condition of parse_requirement_line: after stripping an
inline comment and trimming, the line is empty, starts with a dash, or
carries an index directive. -/
def sourceDiscards (lineIn : String) : Bool :=
  let line := trimStr (splitFirst '#' lineIn)
  isEmptyStr line || startsWithStr line "-" || subStr line "--index-url" ||
    subStr line "--extra-index-url"

/-- RequirementsAnalyzer::parse_requirement_line (src/installer/pip_manager.rs
lines 75-116). -/
def parse_requirement_line (lineIn : String) : Option PackageInfo :=
  if sourceDiscards lineIn then none
  else
    let line := trimStr (splitFirst '#' lineIn)
    let cs := line.data
    let nv : String × Option String :=
      match cs.findIdx? (fun c => verChars.contains c) with
      | some idx =>
        (trimStr (String.mk (cs.take idx)),
         some (trimMatchesVer (String.mk (cs.drop idx))))
      | none => (line, none)
    let namePart := nv.1
    let ne : String × Option (List String) :=
      match namePart.data.findIdx? (fun c => c == '[') with
      | some start =>
        let stop :=
          match namePart.data.findIdx? (fun c => c == ']') with
          | some e => e
          | none => namePart.data.length
        (String.mk (namePart.data.take start),
         some (splitChar ',' (String.mk ((namePart.data.drop (start + 1)).take
             (stop - (start + 1))))))
      | none => (namePart, none)
    let lname := lowStr ne.1
    some { name := lname
           version := nv.2
           extras := ne.2
           package_type := classifyPackage lname
           original_line := lineIn }

/-- RequirementsAnalyzer::analyze_requirements: parse every line of the
manifest, keeping the successfully parsed ones in order. -/
def analyze_requirements (lines : List String) : List PackageInfo :=
  lines.filterMap parse_requirement_line

/-- InstallationPlan (src/installer/pip_manager.rs). -/
structure InstallationPlan where
  torch_packages : List PackageInfo := []
  onnx_packages : List PackageInfo := []
  insightface_packages : List PackageInfo := []
  triton_packages : List PackageInfo := []
  regular_packages : List PackageInfo := []
  torch_index_url : Option String := none
  onnx_package_name : Option String := none
deriving DecidableEq

/-- One iteration of the classification loop of create_installation_plan:
push the package into the bucket selected by its package_type. -/
def pushPackage (plan : InstallationPlan) (p : PackageInfo) : InstallationPlan :=
  match p.package_type with
  | .torch => { plan with torch_packages := plan.torch_packages ++ [p] }
  | .onnxruntime => { plan with onnx_packages := plan.onnx_packages ++ [p] }
  | .insightface =>
    { plan with insightface_packages := plan.insightface_packages ++ [p] }
  | .triton => { plan with triton_packages := plan.triton_packages ++ [p] }
  | .regular => { plan with regular_packages := plan.regular_packages ++ [p] }

/-- The bucket-filling loop of create_installation_plan. -/
def planBuckets (packages : List PackageInfo) : InstallationPlan :=
  packages.foldl pushPackage {}

/-- The fixed nightly cu128 index URL. -/
def nightlyCu128 : String := "https://download.pytorch.org/whl/nightly/cu128"

/-- The CPU fallback index URL. -/
def cpuIndexUrl : String := "https://download.pytorch.org/whl/cpu"

/-- The Linux system-CUDA to index-URL table of get_torch_index_url. -/
def linux_cuda_index_url : CudaVersionLinux → String
  | .cuda128 => nightlyCu128
  | .cuda126 => "https://download.pytorch.org/whl/cu126"
  | .cuda124 => "https://download.pytorch.org/whl/cu124"
  | .cuda121 => "https://download.pytorch.org/whl/cu121"
  | .cuda118 => "https://download.pytorch.org/whl/cu118"

/-- The Windows configured-CUDA to index-URL table of get_torch_index_url. -/
def windows_cuda_index_url : CudaVersion → String
  | .cuda128 => nightlyCu128
  | .cuda124 => "https://download.pytorch.org/whl/cu124"
  | .cuda118 => "https://download.pytorch.org/whl/cu118"

/-- RequirementsAnalyzer::get_torch_index_url (src/installer/pip_manager.rs
lines 136-174).  win embeds cfg!(windows); sysCuda embeds the Linux-only
detect_cuda_version_from_system probe (the corresponding block is only
compiled on unix). -/
def get_torch_index_url (win : Bool) (sysCuda : Option CudaVersionLinux)
    (cfg : ConfigState) : String :=
  let blackwellHit :=
    has_cuda cfg &&
      (subStr (upStr (get_gpu_name cfg)) "RTX 50" ||
       subStr (lowStr (genDebugStr (detect_current_gpu_generation cfg)))
         "blackwell")
  if blackwellHit then nightlyCu128
  else if !win then
    match sysCuda with
    | some cv => linux_cuda_index_url cv
    | none => cpuIndexUrl
  else if has_cuda cfg then
    match get_cuda_version cfg with
    | some v => windows_cuda_index_url v
    | none => cpuIndexUrl
  else cpuIndexUrl

/-- RequirementsAnalyzer::get_onnx_package_name (src/installer/pip_manager.rs
lines 176-188). -/
def get_onnx_package_name (win : Bool) (cfg : ConfigState) : String :=
  if has_cuda cfg then
    let up := upStr (get_gpu_name cfg)
    if subStr up "NVIDIA" then "onnxruntime-gpu"
    else if (subStr up "AMD" || subStr up "INTEL") && win then
      "onnxruntime-directml"
    else "onnxruntime"
  else "onnxruntime"

/-- RequirementsAnalyzer::create_installation_plan (src/installer/
pip_manager.rs lines 118-134). -/
def create_installation_plan (win : Bool) (sysCuda : Option CudaVersionLinux)
    (cfg : ConfigState) (packages : List PackageInfo) : InstallationPlan :=
  let plan := planBuckets packages
  { plan with
    torch_index_url := some (get_torch_index_url win sysCuda cfg)
    onnx_package_name := some (get_onnx_package_name win cfg) }

/-- PipManager::needs_onnx_nightly (src/installer/pip_manager.rs lines
673-697). -/
def needs_onnx_nightly (win : Bool) (sysCuda : Option CudaVersionLinux)
    (cfg : ConfigState) : Bool :=
  let blackwellNvidia :=
    has_cuda cfg &&
      (let up := upStr (get_gpu_name cfg)
       (subStr up "NVIDIA" || subStr up "RTX" || subStr up "GEFORCE") &&
         subStr (lowStr (genDebugStr (detect_current_gpu_generation cfg)))
           "blackwell")
  blackwellNvidia ||
    (!win && (match sysCuda with | some .cuda128 => true | _ => false))

/-- PipManager::apply_onnx_gpu_detection (src/installer/pip_manager.rs lines
659-670). -/
def apply_onnx_gpu_detection (win : Bool) (cfg : ConfigState)
    (base : String) : String :=
  let up := upStr (get_gpu_name cfg)
  if startsWithStr base "onnxruntime" && !subStr base "-gpu" &&
     !subStr base "-directml" then
    if subStr up "NVIDIA" then replaceAll base "onnxruntime" "onnxruntime-gpu"
    else if (subStr up "AMD" || subStr up "INTEL") && win then
      replaceAll base "onnxruntime" "onnxruntime-directml"
    else base
  else base

/-- Bucket accessor by package type, for stating partition properties. -/
def planBucket (plan : InstallationPlan) : PackageType → List PackageInfo
  | .torch => plan.torch_packages
  | .onnxruntime => plan.onnx_packages
  | .insightface => plan.insightface_packages
  | .triton => plan.triton_packages
  | .regular => plan.regular_packages

/-- Sum of the five bucket sizes of a plan. -/
def bucketSizesSum (plan : InstallationPlan) : Nat :=
  plan.regular_packages.length + plan.torch_packages.length +
  plan.onnx_packages.length + plan.triton_packages.length +
  plan.insightface_packages.length

/-- The discard condition as worded by the claim: only blank lines, comment
lines and index-directive lines are discarded before classification.  Written
from the claim text, for comparison with sourceDiscards. -/
def claimDiscards (lineIn : String) : Bool :=
  isEmptyStr (trimStr lineIn) || startsWithStr (trimStr lineIn) "#" ||
    subStr lineIn "--index-url" || subStr lineIn "--extra-index-url"

/-! ### src/gpu.rs: GPU detection -/

/-- GpuType (src/gpu.rs). -/
inductive GpuType where
  | nvidia | amd | intel | unknown
deriving DecidableEq

/-- GpuInfo (src/gpu.rs). -/
structure GpuInfo where
  name : String
  gpu_type : GpuType
  memory_mb : Nat
  driver_version : Option String
deriving DecidableEq

/-- GpuDetector::determine_gpu_type (src/gpu.rs). -/
def determine_gpu_type (name : String) : GpuType :=
  let up := upStr name
  if subStr up "NVIDIA" || subStr up "GEFORCE" || subStr up "QUADRO" ||
     subStr up "TESLA" then .nvidia
  else if subStr up "AMD" || subStr up "RADEON" then .amd
  else if subStr up "INTEL" then .intel
  else .unknown

/-- The host as observed by the detector: the outcome of running nvidia-smi
(none when the command cannot be spawned; otherwise its success flag and
stdout lines), the parsed device-enumeration results of the Windows WMI/WMIC
path, the Linux lspci scrape, and the Linux glxinfo scrape.  The enumeration
paths swallow their own failures in the source and yield lists, so their
results are embedded directly. -/
structure HostState where
  nvidiaSmi : Option (Bool × List String)
  wmiGpus : List GpuInfo
  lspciGpus : List GpuInfo
  glxGpu : Option GpuInfo

/-- GpuDetector::parse_nvidia_smi_output (src/gpu.rs lines 55-73): split the
line on commas, trim each part, require at least three fields and a parseable
u32 memory field. -/
def parse_nvidia_smi_output (line : String) : Except PSError (Option GpuInfo) :=
  let parts := (splitChar ',' line).map trimStr
  if parts.length ≥ 3 then
    match parseU32 ((parts.get? 1).getD "") with
    | some mem =>
      .ok (some { name := (parts.get? 0).getD ""
                  gpu_type := .nvidia
                  memory_mb := mem
                  driver_version := some ((parts.get? 2).getD "") })
    | none => .error (.gpuDetection "Failed to parse GPU memory")
  else .error (.gpuDetection "Invalid nvidia-smi output format")

/-- GpuDetector::detect_nvidia_gpu (src/gpu.rs lines 34-53): a failed or
missing nvidia-smi yields Ok(None); a successful run parses the first stdout
line; empty output yields Ok(None). -/
def detect_nvidia_gpu (h : HostState) : Except PSError (Option GpuInfo) :=
  match h.nvidiaSmi with
  | none => .ok none
  | some (false, _) => .ok none
  | some (true, lines) =>
    match lines.head? with
    | some line => parse_nvidia_smi_output line
    | none => .ok none

/-- First Nvidia-classified device of an enumeration, else the first device,
else none (the shared tail of get_best_gpu on both platforms). -/
def firstNvidiaOrHead (gpus : List GpuInfo) : Option GpuInfo :=
  match gpus.find? (fun g => g.gpu_type == .nvidia) with
  | some g => some g
  | none => gpus.head?

/-- GpuDetector::get_best_gpu (src/gpu.rs lines 191-214). -/
def get_best_gpu (win : Bool) (h : HostState) : Except PSError (Option GpuInfo) :=
  match detect_nvidia_gpu h with
  | .error e => .error e
  | .ok (some g) => .ok (some g)
  | .ok none =>
    if win then .ok (firstNvidiaOrHead h.wmiGpus)
    else
      let gpus :=
        if h.lspciGpus.isEmpty then
          match h.glxGpu with
          | some g => [g]
          | none => []
        else h.lspciGpus
      .ok (firstNvidiaOrHead gpus)

/-- ConfigManager::configure_gpu_from_detection (src/config.rs lines
350-362). -/
def configure_gpu_from_detection (win : Bool) (h : HostState)
    (installPathSet : Bool) : Except PSError GpuConfig :=
  match get_best_gpu win h with
  | .error e => .error e
  | .ok (some g) => .ok (configure_gpu installPathSet g.name (g.memory_mb / 1024))
  | .ok none => .ok (configure_gpu installPathSet "Unknown GPU" 0)

/-- Does a successful nvidia-smi run start with a line that
parse_nvidia_smi_output rejects (fewer than three comma-separated fields, or
an unparseable memory field)? -/
def smiFirstLineMalformed (h : HostState) : Bool :=
  match h.nvidiaSmi with
  | some (true, line :: _) =>
    match parse_nvidia_smi_output line with
    | .error _ => true
    | .ok _ => false
  | _ => false

/-! ### src/envs_manager.rs: resumable download and portable tools -/

/-- A remote file server: respond maps a requested byte-range start (none for
a plain GET) to the HTTP success flag and response body bytes. -/
structure HttpServer where
  respond : Option Nat → Bool × List Nat

/-- One HTTP request issued by download_with_resume: a ranged GET from a byte
offset, or a plain GET. -/
inductive DlRequest where
  | ranged (start : Nat)
  | plain
deriving DecidableEq

/-- The byte offset a request asks the transfer to begin at. -/
def request_start : DlRequest → Nat
  | .ranged n => n
  | .plain => 0

/-- PortableEnvironmentManager::download_with_resume (src/envs_manager.rs
lines 100-185), as a function of the server behaviour and the partial file on
disk (none when absent); returns the issued requests and the final file
contents.  A partial file issues a ranged request from its length and appends
the body; a non-success ranged response falls back to a plain GET after
removing the partial file; a fresh download writes the plain body. -/
def download_with_resume (srv : HttpServer) (partialFile : Option (List Nat)) :
    List DlRequest × Except PSError (List Nat) :=
  let existingLen := match partialFile with
    | some bs => bs.length
    | none => 0
  if existingLen > 0 then
    let r1 := srv.respond (some existingLen)
    if r1.1 then ([.ranged existingLen], .ok ((partialFile.getD []) ++ r1.2))
    else
      let r2 := srv.respond none
      if r2.1 then ([.ranged existingLen, .plain], .ok r2.2)
      else ([.ranged existingLen, .plain],
            .error (.environment "Download failed"))
  else
    let r := srv.respond none
    if r.1 then ([.plain], .ok r.2)
    else ([.plain], .error (.environment "Download failed"))

/-- A server that honors ranged requests for a fixed file: a ranged GET from
offset i succeeds with the suffix from i, and a plain GET succeeds with the
whole file. -/
def ServerHonorsRanges (srv : HttpServer) (content : List Nat) : Prop :=
  (∀ i, srv.respond (some i) = (true, content.drop i)) ∧
    srv.respond none = (true, content)

/-- A server that rejects every ranged request but serves plain GETs of the
fixed file. -/
def ServerRejectsRanges (srv : HttpServer) (content : List Nat) : Prop :=
  (∀ i, (srv.respond (some i)).1 = false) ∧
    srv.respond none = (true, content)

/-- PortableToolSpec (src/envs_manager.rs). -/
structure ToolSpec where
  name : String
  url : String
  extract_path : String
  executable_path : String
deriving DecidableEq

/-- PortableEnvironmentManager::build_tool_specs (src/envs_manager.rs lines
66-97), keyed list form; win embeds cfg!(windows). -/
def tool_specs (win : Bool) : List (String × ToolSpec) :=
  [("ffmpeg",
    { name := "ffmpeg"
      url := "https://files.portables.dev/ffmpeg.7z"
      extract_path := "ffmpeg"
      executable_path := if win then "ffmpeg/ffmpeg.exe" else "ffmpeg/ffmpeg" }),
   ("git",
    { name := "git"
      url := "https://files.portables.dev/git.7z"
      extract_path := "git"
      executable_path := if win then "git/cmd/git.exe" else "git/bin/git" }),
   ("python",
    { name := "python"
      url := "https://files.portables.dev/python311.7z"
      extract_path := "python"
      executable_path := if win then "python/python.exe" else "python/bin/python" })]

/-- The tool_specs.get(key) lookup. -/
def lookupSpec (win : Bool) (key : String) : Option ToolSpec :=
  (tool_specs win).lookup key

/-- PortableEnvironmentManager::is_tool_installed (src/envs_manager.rs lines
52-58): the tool is installed when its expected executable exists under
ps_env.  disk is the set of paths present on disk. -/
def is_tool_installed (win : Bool) (disk : List String) (key : String) : Bool :=
  match lookupSpec win key with
  | some spec => disk.contains ("ps_env/" ++ spec.executable_path)
  | none => false

/-- External actions of install_portable_tool. -/
inductive ArtifactEvent where
  | download (url : String)
  | extract (archive : String)
  | removeArchive
deriving DecidableEq

/-- Outcomes of the side-effecting sub-steps of install_portable_tool: does
the download succeed, does 7z extraction succeed, and does the expected
executable exist after extraction. -/
structure ArtifactOracle where
  downloadOk : Bool
  extractOk : Bool
  exeAppears : Bool

/-- Last path segment of an archive URL, mirroring
Url::parse(..).path_segments().next_back(). -/
def url_last_segment (url : String) : Option String :=
  (splitChar '/' url).getLast?

/-- PortableEnvironmentManager::install_portable_tool (src/envs_manager.rs
lines 343-367): short-circuits when the expected executable already exists;
otherwise downloads the archive, extracts it, deletes it, and checks the
executable appeared. -/
def install_portable_tool (win : Bool) (disk : List String)
    (orc : ArtifactOracle) (key : String) :
    List ArtifactEvent × Except PSError Unit :=
  match lookupSpec win key with
  | none => ([], .error (.environment ("Unknown tool: " ++ key)))
  | some spec =>
    let exePath := "ps_env/" ++ spec.executable_path
    if disk.contains exePath then ([], .ok ())
    else
      let archiveName := (url_last_segment spec.url).getD (spec.name ++ ".7z")
      if !orc.downloadOk then
        ([.download spec.url], .error (.environment "Download failed"))
      else if !orc.extractOk then
        ([.download spec.url, .extract archiveName],
         .error (.environment "7z.exe extraction failed"))
      else if !orc.exeAppears then
        ([.download spec.url, .extract archiveName, .removeArchive],
         .error (.environment (spec.name ++ " installation failed")))
      else
        ([.download spec.url, .extract archiveName, .removeArchive], .ok ())

/-! ### src/repository_installer.rs: repository lifecycle -/

/-- External actions of the repository lifecycle operations. -/
inductive RepoEvent where
  | pullCmd
  | fixFetch
  | fixReset
  | removeDir
  | cloneCmd
  | fetchAll
  | resetMain
  | resetMaster
  | installDeps
deriving DecidableEq

/-- The exact corruption error message produced by
update_repository_with_fixes. -/
def corruptedMsg : String :=
  "Repository corrupted (exit code 128) - removed for re-cloning"

/-- Result of the update-with-fixes loop: its event trace, its returned
Result, and whether the working-tree directory was removed. -/
structure UpdateFixResult where
  trace : List RepoEvent
  result : Except PSError Unit
  removed : Bool

/-- The retry loop body of RepositoryInstaller::update_repository_with_fixes
(src/repository_installer.rs lines 694-720).  pulls gives, per attempt index,
none for a successful git pull or the error message of a failed one; removeOk
gives the outcome of the std::fs::remove_dir_all call attempted on the
corruption path.  On an error message carrying the exit-code-128 signal, the
directory removal is attempted (the removeDir event) and the corruption error
returned — a failed removal is only logged (lines 706-708), so the same error
is returned either way and removed records whether the tree is actually gone.
Otherwise, before the last attempt, fix_git_issues runs git fetch origin and
git reset --hard origin/main (it always returns Ok) and the loop retries; the
last attempt fails the update. -/
def update_fix_go (pulls : Nat → Option String) (removeOk : Bool) :
    Nat → Nat → UpdateFixResult
  | _, 0 => ⟨[], .error (.repository "Failed to update repository"), false⟩
  | attempt, fuel + 1 =>
    match pulls attempt with
    | none => ⟨[.pullCmd], .ok (), false⟩
    | some msg =>
      if subStr msg "exit code: 128" then
        ⟨[.pullCmd, .removeDir], .error (.repository corruptedMsg), removeOk⟩
      else if attempt < 2 then
        let rest := update_fix_go pulls removeOk (attempt + 1) fuel
        ⟨.pullCmd :: .fixFetch :: .fixReset :: rest.trace,
         rest.result, rest.removed⟩
      else ⟨[.pullCmd], .error (.repository "Failed to update repository"), false⟩

/-- RepositoryInstaller::update_repository_with_fixes: the loop with
max_attempts = 3, starting at attempt 0. -/
def update_repository_with_fixes (pulls : Nat → Option String)
    (removeOk : Bool) : UpdateFixResult :=
  update_fix_go pulls removeOk 0 3

/-- The on-disk and remote context of clone_or_update_repository: whether the
target path exists, whether it contains .git metadata, the resolved source
URL if any, and whether the git clone succeeds. -/
structure CloneEnv where
  pathExists : Bool
  dotGitExists : Bool
  url : Option String
  cloneOk : Bool

/-- The cloning tail of clone_or_update_repository: requires a URL, then runs
git clone. -/
def cloneStep (env : CloneEnv) (prefixEvs : List RepoEvent) :
    List RepoEvent × Except PSError Unit :=
  match env.url with
  | none => (prefixEvs, .error (.repository "Missing repository URL"))
  | some _ =>
    if env.cloneOk then (prefixEvs ++ [.cloneCmd], .ok ())
    else (prefixEvs ++ [.cloneCmd], .error (.command "clone failed"))

/-- RepositoryInstaller::clone_or_update_repository
(src/repository_installer.rs lines 645-692): an existing path with .git is
updated; an update error carrying the corruption message proceeds to a fresh
clone; any other update error propagates; an existing path without .git is a
hard error; a missing path clones. -/
def clone_or_update_repository (env : CloneEnv)
    (pulls : Nat → Option String) (removeOk : Bool) :
    List RepoEvent × Except PSError Unit :=
  if env.pathExists then
    if env.dotGitExists then
      let u := update_repository_with_fixes pulls removeOk
      match u.result with
      | .ok _ => (u.trace, .ok ())
      | .error e =>
        if subStr (errText e) "Repository corrupted (exit code 128)" then
          cloneStep env u.trace
        else (u.trace, .error e)
    else ([], .error (.repository "Directory exists but is not a git repository"))
  else cloneStep env []

/-- The sub-step outcomes of the public RepositoryInstaller::update_repository
(src/repository_installer.rs lines 63-100): whether the repository directory
exists, and the success of each swallowed sub-step (git fetch --all, git reset
--hard origin/main, git reset --hard origin/master, git pull, dependency
reinstall). -/
structure UpdateRepoEnv where
  dirExists : Bool
  fetchOk : Bool
  resetMainOk : Bool
  resetMasterOk : Bool
  pullOk : Bool
  depsOk : Bool

/-- RepositoryInstaller::update_repository: errors only when the repository
directory is missing; each git sub-step failure is logged and swallowed (the
master reset is attempted only when the main reset fails), and the dependency
reinstall result is discarded. -/
def update_repository (e : UpdateRepoEnv) : List RepoEvent × Except PSError Unit :=
  if !e.dirExists then
    ([], .error (.repository "Repository not found"))
  else
    let resetEvs :=
      if e.resetMainOk then [RepoEvent.resetMain]
      else [RepoEvent.resetMain, RepoEvent.resetMaster]
    ([RepoEvent.fetchAll] ++ resetEvs ++ [RepoEvent.pullCmd, RepoEvent.installDeps],
     .ok ())

/-- The dependency sources and sub-step outcomes visible to
RepositoryInstaller::install_dependencies (src/repository_installer.rs lines
301-346): venv creation outcome; the server installation plan, if the
metadata service returned one, together with the outcome of executing it;
the pyproject.toml extraction outcome, if a pyproject.toml exists; the
outcomes of installing the extracted requirements and of installing the
repository as a package; whether find_requirements_files found a manifest,
and the outcome of installing it. -/
structure DepsEnv where
  venvOk : Bool
  serverPlan : Option (Except PSError Bool)
  pyprojectExtract : Option (Except PSError Unit)
  pyInstallReqs : Except PSError Unit
  pyInstallPkg : Except PSError Unit
  reqFileFound : Bool
  reqInstall : Except PSError Unit

/-- RepositoryInstaller::install_dependencies: create the venv, prefer a
server installation plan, fall back to pyproject.toml extraction, fall back
to a requirements file; when no manifest of any kind is found the function
logs and returns Ok. -/
def install_dependencies (e : DepsEnv) : Except PSError Unit :=
  if !e.venvOk then .error (.environment "venv creation failed")
  else
    let reqPhase : Except PSError Unit :=
      if e.reqFileFound then e.reqInstall else .ok ()
    let localPhase : Except PSError Unit :=
      match e.pyprojectExtract with
      | some (.ok _) =>
        match e.pyInstallReqs with
        | .ok _ =>
          (match e.pyInstallPkg with
           | .ok _ => .ok ()
           | .error er => .error er)
        | .error er => .error er
      | some (.error _) => reqPhase
      | none => reqPhase
    match e.serverPlan with
    | some (.error er) => .error er
    | some (.ok true) => .ok ()
    | some (.ok false) => localPhase
    | none => localPhase

/-- The missing-file guard of PipManager::install_requirements_with_uv_or_pip
(src/installer/pip_manager.rs lines 448-451): a named requirements path that
does not exist is a hard repository error; otherwise the remaining
installation steps run. -/
def pip_install_requirements_guard (fileExists : Bool)
    (rest : Except PSError Unit) : Except PSError Unit :=
  if !fileExists then
    .error (.repository "Requirements file not found")
  else rest

/-- A DepsEnv with no dependency manifest of any kind: no server plan, no
pyproject.toml and no requirements file found, with a successfully created
venv. -/
def noManifestEnv : DepsEnv :=
  { venvOk := true
    serverPlan := none
    pyprojectExtract := none
    pyInstallReqs := .ok ()
    pyInstallPkg := .ok ()
    reqFileFound := false
    reqInstall := .ok () }

/-- Count of pull invocations in a lifecycle trace. -/
def pullCount (evs : List RepoEvent) : Nat :=
  evs.countP (fun e => e == RepoEvent.pullCmd)

/-- Shape of a remediation-loop trace: pull attempts separated by the fixed
remediation pair (fetch origin; reset hard), optionally ending with the
directory removal that follows the corruption signal. -/
def remediationShaped : List RepoEvent → Bool
  | [RepoEvent.pullCmd] => true
  | [RepoEvent.pullCmd, RepoEvent.removeDir] => true
  | RepoEvent.pullCmd :: RepoEvent.fixFetch :: RepoEvent.fixReset :: rest =>
    remediationShaped rest
  | _ => false

/-- Decidable equality of operation results, for evaluating the embedded
operations at concrete inputs. -/
instance : DecidableEq (Except PSError Unit) := fun a b => by
  rcases a with ea | ua <;> rcases b with eb | ub
  · exact match decEq ea eb with
      | isTrue h => isTrue (by rw [h])
      | isFalse h => isFalse (fun hh => h (by injection hh))
  · exact isFalse (fun hh => by injection hh)
  · exact isFalse (fun hh => by injection hh)
  · exact match decEq ua ub with
      | isTrue h => isTrue (by rw [h])
      | isFalse h => isFalse (fun hh => h (by injection hh))

/-! ### Helper lemmas -/

theorem parse_requirement_line_type {line : String} {p : PackageInfo}
    (h : parse_requirement_line line = some p) :
    p.package_type = classifyPackage p.name := by
  unfold parse_requirement_line at h
  split at h
  · exact Option.noConfusion h
  · simp only [Option.some.injEq] at h
    subst h
    rfl

theorem parse_requirement_line_isSome (line : String) :
    (parse_requirement_line line).isSome = ! sourceDiscards line := by
  simp only [parse_requirement_line]
  split
  · next h => simp [h]
  · next h =>
    simp only [Bool.not_eq_true] at h
    simp [h]

theorem mem_analyze_requirements_type {lines : List String} {p : PackageInfo}
    (hp : p ∈ analyze_requirements lines) :
    p.package_type = classifyPackage p.name := by
  simp only [analyze_requirements, List.mem_filterMap] at hp
  obtain ⟨line, _, hline⟩ := hp
  exact parse_requirement_line_type hline

theorem planBucket_pushPackage (acc : InstallationPlan) (p : PackageInfo)
    (t : PackageType) :
    planBucket (pushPackage acc p) t =
      planBucket acc t ++ (if p.package_type == t then [p] else []) := by
  cases hp : p.package_type <;> cases t <;>
    simp [pushPackage, planBucket, hp]

theorem planBucket_foldl (t : PackageType) :
    ∀ (pkgs : List PackageInfo) (acc : InstallationPlan),
      planBucket (List.foldl pushPackage acc pkgs) t =
        planBucket acc t ++ pkgs.filter (fun p => p.package_type == t)
  | [], _ => by simp
  | p :: pkgs, acc => by
    simp only [List.foldl_cons]
    rw [planBucket_foldl t pkgs (pushPackage acc p), planBucket_pushPackage]
    cases hb : (p.package_type == t) <;>
      simp [List.filter_cons, hb]

theorem planBucket_empty (t : PackageType) :
    planBucket ({} : InstallationPlan) t = [] := by
  cases t <;> rfl

theorem planBucket_planBuckets (pkgs : List PackageInfo) (t : PackageType) :
    planBucket (planBuckets pkgs) t =
      pkgs.filter (fun p => p.package_type == t) := by
  simp [planBuckets, planBucket_foldl, planBucket_empty]

theorem planBucket_create (win : Bool) (sysCuda : Option CudaVersionLinux)
    (cfg : ConfigState) (pkgs : List PackageInfo) (t : PackageType) :
    planBucket (create_installation_plan win sysCuda cfg pkgs) t =
      planBucket (planBuckets pkgs) t := by
  cases t <;> rfl

theorem filter_type_length_sum :
    ∀ pkgs : List PackageInfo,
      (pkgs.filter (fun p => p.package_type == PackageType.regular)).length +
      (pkgs.filter (fun p => p.package_type == PackageType.torch)).length +
      (pkgs.filter (fun p => p.package_type == PackageType.onnxruntime)).length +
      (pkgs.filter (fun p => p.package_type == PackageType.triton)).length +
      (pkgs.filter (fun p => p.package_type == PackageType.insightface)).length
        = pkgs.length
  | [] => rfl
  | p :: pkgs => by
    have ih := filter_type_length_sum pkgs
    cases hp : p.package_type <;> simp [List.filter_cons, hp] <;> omega

theorem bucketSizesSum_eq (win : Bool) (sysCuda : Option CudaVersionLinux)
    (cfg : ConfigState) (pkgs : List PackageInfo) :
    bucketSizesSum (create_installation_plan win sysCuda cfg pkgs) =
      pkgs.length := by
  have hr := planBucket_planBuckets pkgs .regular
  have ht := planBucket_planBuckets pkgs .torch
  have ho := planBucket_planBuckets pkgs .onnxruntime
  have htr := planBucket_planBuckets pkgs .triton
  have hi := planBucket_planBuckets pkgs .insightface
  simp only [planBucket] at hr ht ho htr hi
  simp only [bucketSizesSum, create_installation_plan]
  rw [hr, ht, ho, htr, hi]
  exact filter_type_length_sum pkgs

/-! ### C1: bucket partition of the installation plan -/

/-- C1 (counterexample): the claim admits only blank lines, comment lines and
index directives as discarded, but the option line "-r extra.txt" is none of
the three and parse_requirement_line still discards it, so for the one-line
manifest the claimed count N is 1 while the five buckets of the resulting
plan together hold 0 packages. -/
theorem c1_partition_counterexample :
    claimDiscards "-r extra.txt" = false ∧
    parse_requirement_line "-r extra.txt" = none ∧
    bucketSizesSum (create_installation_plan true none ⟨none⟩
        (analyze_requirements ["-r extra.txt"])) = 0 := by
  exact ⟨by decide, by decide, by decide⟩

/-- C1 (amended): parsing followed by create_installation_plan yields five
buckets that exactly partition the parsed requirement list: a line survives
parsing exactly when, after stripping an inline comment and trimming, it is
non-empty, does not start with a dash, and carries no index directive; the
five bucket sizes sum to the number of surviving lines; and no package name
appears in two different buckets. -/
theorem c1_partition_amended (lines : List String) (win : Bool)
    (sysCuda : Option CudaVersionLinux) (cfg : ConfigState) :
    bucketSizesSum (create_installation_plan win sysCuda cfg
        (analyze_requirements lines)) = (analyze_requirements lines).length ∧
    (∀ line, (parse_requirement_line line).isSome = ! sourceDiscards line) ∧
    (∀ t1 t2 : PackageType, ∀ p q : PackageInfo,
        p ∈ planBucket (create_installation_plan win sysCuda cfg
            (analyze_requirements lines)) t1 →
        q ∈ planBucket (create_installation_plan win sysCuda cfg
            (analyze_requirements lines)) t2 →
        t1 ≠ t2 → p.name ≠ q.name) := by
  refine ⟨bucketSizesSum_eq win sysCuda cfg (analyze_requirements lines),
    fun line => parse_requirement_line_isSome line, ?_⟩
  intro t1 t2 p q hp hq hne heq
  rw [planBucket_create, planBucket_planBuckets] at hp hq
  obtain ⟨hpm, hp2⟩ := List.mem_filter.mp hp
  obtain ⟨hqm, hq2⟩ := List.mem_filter.mp hq
  have hpt := mem_analyze_requirements_type hpm
  have hqt := mem_analyze_requirements_type hqm
  apply hne
  have e1 : p.package_type = t1 := by simpa using hp2
  have e2 : q.package_type = t2 := by simpa using hq2
  rw [← e1, ← e2, hpt, hqt, heq]

/-- C1 (witness): the amended partition theorem applied to the concrete
two-line manifest torch / onnxruntime: the buckets hold both parsed packages
and the torch-bucket package name differs from the onnx-bucket package
name. -/
theorem c1_partition_amended_witness :
    bucketSizesSum (create_installation_plan true none ⟨none⟩
        (analyze_requirements ["torch", "onnxruntime"])) =
      (analyze_requirements ["torch", "onnxruntime"]).length ∧
    ({ name := "torch", version := none, extras := none,
       package_type := .torch, original_line := "torch" } :
        PackageInfo).name ≠
      ({ name := "onnxruntime", version := none, extras := none,
         package_type := .onnxruntime, original_line := "onnxruntime" } :
          PackageInfo).name := by
  constructor
  · exact (c1_partition_amended ["torch", "onnxruntime"] true none ⟨none⟩).1
  · exact (c1_partition_amended ["torch", "onnxruntime"] true none ⟨none⟩).2.2
      .torch .onnxruntime _ _ (by decide) (by decide) (by decide)

/-! ### C6: the backend decision table -/

/-- C6: the device name NVIDIA GeForce RTX 4090 yields generation
AdaLovelace, the cuda,tensorrt backend recommendation and
tensorrt-capable = true; and in general configure_gpu upgrades a device to
the cuda,tensorrt backend exactly when the name is Nvidia-classified, the
resolved runtime version is the mid or latest CUDA release (12.4 or 12.8)
and the generation is Turing, Ampere, AdaLovelace or Blackwell. -/
theorem c6_backend_decision_table :
    (configure_gpu true "NVIDIA GeForce RTX 4090" 24).generation =
        GpuGeneration.adaLovelace ∧
    (configure_gpu true "NVIDIA GeForce RTX 4090" 24).recommended_backend =
        "cuda,tensorrt" ∧
    (configure_gpu true "NVIDIA GeForce RTX 4090" 24).supports_tensorrt =
        true ∧
    ∀ (s : Bool) (name : String) (mem : Nat),
      ((configure_gpu s name mem).supports_tensorrt = true ↔
        (is_nvidia_gpu_name (upStr name) = true ∧
         (cuda_mapping (detect_gpu_generation name) = some .cuda124 ∨
          cuda_mapping (detect_gpu_generation name) = some .cuda128) ∧
         detect_gpu_generation name ∈
           [GpuGeneration.turing, GpuGeneration.ampere,
            GpuGeneration.adaLovelace, GpuGeneration.blackwell])) ∧
      ((configure_gpu s name mem).recommended_backend = "cuda,tensorrt" ↔
        (configure_gpu s name mem).supports_tensorrt = true) := by
  refine ⟨by decide, by decide, by decide, ?_⟩
  intro s name mem
  cases hn : is_nvidia_gpu_name (upStr name) <;>
    cases hg : detect_gpu_generation name <;>
      cases ha : is_amd_gpu_name (upStr name) <;>
        cases hi : is_intel_gpu_name (upStr name) <;>
          simp [configure_gpu, hn, hg, ha, hi, cuda_mapping]

/-! ### Substring lemmas for the Blackwell name analysis -/

theorem isPref_append_left (p q : List Char) :
    ∀ l, isPref (p ++ q) l = true → isPref p l = true := by
  induction p with
  | nil => intro l _; rfl
  | cons a as ih =>
    intro l h
    cases l with
    | nil => simp [isPref] at h
    | cons b bs =>
      simp only [List.cons_append, isPref, Bool.and_eq_true] at h ⊢
      exact ⟨h.1, ih bs h.2⟩

theorem subList_append_left (p q : List Char) :
    ∀ hay, subList (p ++ q) hay = true → subList p hay = true := by
  intro hay
  induction hay with
  | nil =>
    simp only [subList, List.isEmpty_eq_true, List.append_eq_nil]
    rintro ⟨h1, _⟩
    simp [h1]
  | cons b bs ih =>
    simp only [subList, Bool.or_eq_true]
    rintro (h | h)
    · exact Or.inl (isPref_append_left p q _ h)
    · exact Or.inr (ih h)

theorem subStr_rtx_of_blackwell {up : String}
    (h : matchesGeneration up .blackwell = true) : subStr up "RTX" = true := by
  simp only [matchesGeneration, gpu_patterns, List.any_eq_true,
    List.mem_cons, List.not_mem_nil, or_false] at h
  obtain ⟨pat, hmem, hsub⟩ := h
  unfold subStr at hsub ⊢
  rcases hmem with h | h | h | h | h <;> subst h
  · have e : (upStr "RTX 50").data = "RTX".data ++ (" 50").data := by decide
    rw [e] at hsub
    exact subList_append_left _ _ _ hsub
  · have e : (upStr "RTX 5060").data = "RTX".data ++ (" 5060").data := by decide
    rw [e] at hsub
    exact subList_append_left _ _ _ hsub
  · have e : (upStr "RTX 5070").data = "RTX".data ++ (" 5070").data := by decide
    rw [e] at hsub
    exact subList_append_left _ _ _ hsub
  · have e : (upStr "RTX 5080").data = "RTX".data ++ (" 5080").data := by decide
    rw [e] at hsub
    exact subList_append_left _ _ _ hsub
  · have e : (upStr "RTX 5090").data = "RTX".data ++ (" 5090").data := by decide
    rw [e] at hsub
    exact subList_append_left _ _ _ hsub

theorem detect_blackwell_matches {name : String}
    (h : detect_gpu_generation name = GpuGeneration.blackwell) :
    matchesGeneration (upStr name) .blackwell = true := by
  unfold detect_gpu_generation at h
  split at h
  · exact absurd h (by decide)
  · split at h
    · exact absurd h (by decide)
    · split at h
      · exact absurd h (by decide)
      · split at h
        · exact absurd h (by decide)
        · split at h
          · next hc => exact hc
          · exact absurd h (by decide)

theorem configure_gpu_name (s : Bool) (name : String) (mem : Nat) :
    (configure_gpu s name mem).name = name := rfl

theorem configure_gpu_cuda_version (s : Bool) (name : String) (mem : Nat) :
    (configure_gpu s name mem).cuda_version =
      cuda_mapping (detect_gpu_generation name) := rfl

theorem genDebugStr_not_blackwell {g : GpuGeneration}
    (h : g ≠ GpuGeneration.blackwell) :
    subStr (lowStr (genDebugStr g)) "blackwell" = false := by
  cases g <;> first | decide | exact absurd rfl h

/-! ### C7: torch index URL and onnx pre-release flag -/

/-- C7 (counterexample): on Windows, the non-Blackwell device NVIDIA GeForce
RTX 4090 (AdaLovelace) resolves the configured CUDA 12.8 and
get_torch_index_url returns the nightly cu128 index, which lies outside the
claimed fixed table cpu/cu118/cu124, without any detected system CUDA. -/
theorem c7_torch_index_counterexample :
    detect_gpu_generation "NVIDIA GeForce RTX 4090" ≠
        GpuGeneration.blackwell ∧
    get_torch_index_url true none
        ⟨some (configure_gpu true "NVIDIA GeForce RTX 4090" 24)⟩ =
      "https://download.pytorch.org/whl/nightly/cu128" ∧
    ("https://download.pytorch.org/whl/nightly/cu128" ∉
      ["https://download.pytorch.org/whl/cpu",
       "https://download.pytorch.org/whl/cu118",
       "https://download.pytorch.org/whl/cu124"]) := by
  exact ⟨by decide, by decide, by decide⟩

/-- C7 (amended): a profile whose device name maps to the Blackwell
generation selects the nightly cu128 torch index and sets the onnxruntime
pre-release flag; for other profiles the torch index comes from the fixed
version table, which holds cpu, cu118, cu121, cu124 and cu126 — the nightly
index is also chosen when the resolved profile CUDA version (Windows) or the
detected system CUDA (Linux) is 12.8, not only for Blackwell. -/
theorem c7_torch_index_amended (win s : Bool) (name : String) (mem : Nat)
    (sysCuda : Option CudaVersionLinux) (cfg : ConfigState) :
    (detect_gpu_generation name = GpuGeneration.blackwell →
      get_torch_index_url win sysCuda ⟨some (configure_gpu s name mem)⟩ =
          nightlyCu128 ∧
        needs_onnx_nightly win sysCuda ⟨some (configure_gpu s name mem)⟩ =
          true) ∧
    ((win = true → get_cuda_version cfg ≠ some CudaVersion.cuda128) →
     (win = false → sysCuda ≠ some CudaVersionLinux.cuda128) →
     detect_current_gpu_generation cfg ≠ GpuGeneration.blackwell →
     subStr (upStr (get_gpu_name cfg)) "RTX 50" = false →
     get_torch_index_url win sysCuda cfg ∈
       [cpuIndexUrl,
        "https://download.pytorch.org/whl/cu118",
        "https://download.pytorch.org/whl/cu121",
        "https://download.pytorch.org/whl/cu124",
        "https://download.pytorch.org/whl/cu126"]) := by
  constructor
  · intro hb
    have h1 : has_cuda ⟨some (configure_gpu s name mem)⟩ = true := by
      simp [has_cuda, configure_gpu_cuda_version, hb, cuda_mapping]
    have h2 : detect_current_gpu_generation
        ⟨some (configure_gpu s name mem)⟩ = GpuGeneration.blackwell := by
      simpa [detect_current_gpu_generation, get_gpu_name, configure_gpu_name]
        using hb
    have h3 : subStr (lowStr (genDebugStr GpuGeneration.blackwell))
        "blackwell" = true := by decide
    have h4 : subStr (upStr name) "RTX" = true :=
      subStr_rtx_of_blackwell (detect_blackwell_matches hb)
    have h5 : get_gpu_name ⟨some (configure_gpu s name mem)⟩ = name := rfl
    constructor
    · simp [get_torch_index_url, h1, h2, h3, h5]
    · simp [needs_onnx_nightly, h1, h2, h3, h4, h5]
  · intro hw hl hgen hname
    have h3 := genDebugStr_not_blackwell hgen
    simp only [get_torch_index_url, hname, h3, Bool.or_self, Bool.and_false,
      if_false, Bool.false_eq_true]
    cases win with
    | false =>
      rcases sysCuda with _ | cv
      · simp
      · cases cv with
        | cuda128 => exact absurd rfl (hl rfl)
        | cuda118 => simp [linux_cuda_index_url]
        | cuda121 => simp [linux_cuda_index_url]
        | cuda124 => simp [linux_cuda_index_url]
        | cuda126 => simp [linux_cuda_index_url]
    | true =>
      cases hc : has_cuda cfg with
      | false => simp [hc]
      | true =>
        rcases hv : get_cuda_version cfg with _ | v
        · simp [hc, hv]
        · cases v with
          | cuda128 => exact absurd hv (hw rfl)
          | cuda118 => simp [hc, hv, windows_cuda_index_url]
          | cuda124 => simp [hc, hv, windows_cuda_index_url]

/-- C7 (witness): the amended theorem applied to the Blackwell device name
RTX 5090 on Windows (nightly index and pre-release flag), and to a
CPU-profile Linux host with system CUDA 12.6 (table index). -/
theorem c7_torch_index_amended_witness :
    (get_torch_index_url true none
        ⟨some (configure_gpu true "RTX 5090" 32)⟩ = nightlyCu128 ∧
      needs_onnx_nightly true none
        ⟨some (configure_gpu true "RTX 5090" 32)⟩ = true) ∧
    get_torch_index_url false (some CudaVersionLinux.cuda126) ⟨none⟩ ∈
      [cpuIndexUrl,
       "https://download.pytorch.org/whl/cu118",
       "https://download.pytorch.org/whl/cu121",
       "https://download.pytorch.org/whl/cu124",
       "https://download.pytorch.org/whl/cu126"] := by
  constructor
  · exact (c7_torch_index_amended true true "RTX 5090" 32 none ⟨none⟩).1
      (by decide)
  · exact (c7_torch_index_amended false true "x" 0
        (some CudaVersionLinux.cuda126) ⟨none⟩).2
      (by intro h; exact absurd h (by decide)) (by intro _; decide)
      (by decide) (by decide)

/-! ### C8: onnxruntime package-name substitution -/

/-- C8 (counterexample): the substitution is not a pure function of vendor
and platform.  The device GeForce RTX 3060 is Nvidia-classified by
determine_gpu_type and resolves CUDA, yet on Windows
get_onnx_package_name leaves onnxruntime unchanged because the stored name
lacks the NVIDIA substring; and the AMD device AMD Radeon RX 6800 on Windows
also stays onnxruntime (not onnxruntime-directml) because no CUDA version is
resolved for it and the whole substitution is gated on has_cuda. -/
theorem c8_onnx_substitution_counterexample :
    determine_gpu_type "GeForce RTX 3060" = GpuType.nvidia ∧
    has_cuda ⟨some (configure_gpu true "GeForce RTX 3060" 12)⟩ = true ∧
    get_onnx_package_name true
        ⟨some (configure_gpu true "GeForce RTX 3060" 12)⟩ = "onnxruntime" ∧
    determine_gpu_type "AMD Radeon RX 6800" = GpuType.amd ∧
    get_onnx_package_name true
        ⟨some (configure_gpu true "AMD Radeon RX 6800" 8)⟩ = "onnxruntime" := by
  exact ⟨by decide, by decide, by decide, by decide, by decide⟩

/-- C8 (amended): the plan-level substitution applies only when a CUDA
runtime is resolved (has_cuda) and is then a pure function of the NVIDIA /
AMD / INTEL substrings of the stored device name and the platform; the
command-level apply_onnx_gpu_detection performs the same name-keyed
substitution without the CUDA gate. -/
theorem c8_onnx_substitution_amended (win : Bool) (cfg : ConfigState) :
    (has_cuda cfg = false → get_onnx_package_name win cfg = "onnxruntime") ∧
    (has_cuda cfg = true →
      get_onnx_package_name win cfg =
        (if subStr (upStr (get_gpu_name cfg)) "NVIDIA" then "onnxruntime-gpu"
         else if (subStr (upStr (get_gpu_name cfg)) "AMD" ||
                  subStr (upStr (get_gpu_name cfg)) "INTEL") && win then
           "onnxruntime-directml"
         else "onnxruntime")) ∧
    apply_onnx_gpu_detection win cfg "onnxruntime" =
      (if subStr (upStr (get_gpu_name cfg)) "NVIDIA" then "onnxruntime-gpu"
       else if (subStr (upStr (get_gpu_name cfg)) "AMD" ||
                subStr (upStr (get_gpu_name cfg)) "INTEL") && win then
         "onnxruntime-directml"
       else "onnxruntime") := by
  refine ⟨fun h => by simp [get_onnx_package_name, h],
    fun h => by simp [get_onnx_package_name, h], ?_⟩
  cases hn : subStr (upStr (get_gpu_name cfg)) "NVIDIA" <;>
    cases hai : (subStr (upStr (get_gpu_name cfg)) "AMD" ||
        subStr (upStr (get_gpu_name cfg)) "INTEL") && win <;>
      simp [apply_onnx_gpu_detection, hn, hai] <;> decide

/-- C8 (witness): the amended theorem applied to an NVIDIA-substring profile
on Windows: both substitution paths produce onnxruntime-gpu. -/
theorem c8_onnx_substitution_amended_witness :
    get_onnx_package_name true
        ⟨some (configure_gpu true "NVIDIA GeForce RTX 3080" 10)⟩ =
      "onnxruntime-gpu" ∧
    apply_onnx_gpu_detection true
        ⟨some (configure_gpu true "NVIDIA GeForce RTX 3080" 10)⟩
        "onnxruntime" = "onnxruntime-gpu" := by
  constructor
  · exact ((c8_onnx_substitution_amended true
        ⟨some (configure_gpu true "NVIDIA GeForce RTX 3080" 10)⟩).2.1
        (by decide)).trans (by decide)
  · exact ((c8_onnx_substitution_amended true
        ⟨some (configure_gpu true "NVIDIA GeForce RTX 3080" 10)⟩).2.2).trans
      (by decide)

/-! ### C3: degradation of GPU detection -/

theorem get_best_gpu_detect_error (win : Bool) {h : HostState} {e : PSError}
    (hd : detect_nvidia_gpu h = .error e) : get_best_gpu win h = .error e := by
  unfold get_best_gpu
  rw [hd]

theorem get_best_gpu_detect_ok (win : Bool) {h : HostState}
    {v : Option GpuInfo} (hd : detect_nvidia_gpu h = .ok v) :
    ∃ r, get_best_gpu win h = .ok r := by
  unfold get_best_gpu
  rw [hd]
  cases v with
  | some g => exact ⟨some g, rfl⟩
  | none => cases win <;> exact ⟨_, rfl⟩

theorem detect_nvidia_gpu_malformed_cases (h : HostState) :
    (smiFirstLineMalformed h = true ∧ ∃ e, detect_nvidia_gpu h = .error e) ∨
    (smiFirstLineMalformed h = false ∧ ∃ v, detect_nvidia_gpu h = .ok v) := by
  rcases hsmi : h.nvidiaSmi with _ | ⟨ok, lines⟩
  · right
    refine ⟨?_, none, ?_⟩ <;> simp [smiFirstLineMalformed, detect_nvidia_gpu, hsmi]
  · cases ok with
    | false =>
      right
      refine ⟨?_, none, ?_⟩ <;>
        simp [smiFirstLineMalformed, detect_nvidia_gpu, hsmi]
    | true =>
      cases lines with
      | nil =>
        right
        refine ⟨?_, none, ?_⟩ <;>
          simp [smiFirstLineMalformed, detect_nvidia_gpu, hsmi]
      | cons line rest =>
        rcases hp : parse_nvidia_smi_output line with e | v
        · left
          refine ⟨?_, e, ?_⟩ <;>
            simp [smiFirstLineMalformed, detect_nvidia_gpu, hsmi, hp]
        · right
          refine ⟨?_, v, ?_⟩ <;>
            simp [smiFirstLineMalformed, detect_nvidia_gpu, hsmi, hp]

/-- C3 (counterexample): the resolver can fail.  With nvidia-smi succeeding
but printing a line without the expected three comma-separated fields,
get_best_gpu and configure_gpu_from_detection both return an error instead of
degrading to the Cpu profile. -/
theorem c3_never_fails_counterexample :
    get_best_gpu true
        { nvidiaSmi := some (true, ["NVIDIA GeForce RTX 4090"]),
          wmiGpus := [], lspciGpus := [], glxGpu := none } =
      .error (.gpuDetection "Invalid nvidia-smi output format") ∧
    configure_gpu_from_detection true
        { nvidiaSmi := some (true, ["NVIDIA GeForce RTX 4090"]),
          wmiGpus := [], lspciGpus := [], glxGpu := none } true =
      .error (.gpuDetection "Invalid nvidia-smi output format") := by
  exact ⟨rfl, rfl⟩

/-- C3 (amended): detection degrades rather than failing on every host state
except one family: when nvidia-smi is absent, failing, silent, or prints a
well-formed first line, get_best_gpu and configure_gpu_from_detection return
successfully (an empty enumeration degrades to the Unknown GPU profile with
the cpu backend); they return an error exactly when a successful nvidia-smi
run starts with a malformed line (fewer than three comma-separated fields or
an unparseable memory field). -/
theorem c3_degradation_amended (win : Bool) (h : HostState) (s : Bool) :
    (smiFirstLineMalformed h = false →
      (∃ r, get_best_gpu win h = .ok r) ∧
      ∃ g, configure_gpu_from_detection win h s = .ok g) ∧
    (smiFirstLineMalformed h = true →
      ∃ e, get_best_gpu win h = .error e ∧
        configure_gpu_from_detection win h s = .error e) ∧
    (get_best_gpu win h = .ok none →
      configure_gpu_from_detection win h s =
          .ok (configure_gpu s "Unknown GPU" 0) ∧
        (configure_gpu s "Unknown GPU" 0).recommended_backend = "cpu") := by
  refine ⟨?_, ?_, ?_⟩
  · intro hf
    rcases detect_nvidia_gpu_malformed_cases h with ⟨hm, _, _⟩ | ⟨_, v, hv⟩
    · rw [hf] at hm
      exact absurd hm (by simp)
    · obtain ⟨r, hr⟩ := get_best_gpu_detect_ok win hv
      refine ⟨⟨r, hr⟩, ?_⟩
      unfold configure_gpu_from_detection
      rw [hr]
      cases r with
      | some g => exact ⟨_, rfl⟩
      | none => exact ⟨_, rfl⟩
  · intro hm
    rcases detect_nvidia_gpu_malformed_cases h with ⟨_, e, he⟩ | ⟨hf, _, _⟩
    · have hb := get_best_gpu_detect_error win he
      refine ⟨e, hb, ?_⟩
      unfold configure_gpu_from_detection
      rw [hb]
    · rw [hm] at hf
      exact absurd hf (by simp)
  · intro hok
    unfold configure_gpu_from_detection
    rw [hok]
    refine ⟨rfl, ?_⟩
    cases s <;> decide

/-- C3 (witness): the amended theorem applied to a host with no nvidia-smi
and empty enumerations: detection succeeds, and since it finds no device the
configuration degrades to the Unknown GPU profile with the cpu backend. -/
theorem c3_degradation_amended_witness :
    (∃ r, get_best_gpu true
        { nvidiaSmi := none, wmiGpus := [], lspciGpus := [],
          glxGpu := none } = .ok r) ∧
    configure_gpu_from_detection true
        { nvidiaSmi := none, wmiGpus := [], lspciGpus := [],
          glxGpu := none } true =
        .ok (configure_gpu true "Unknown GPU" 0) ∧
      (configure_gpu true "Unknown GPU" 0).recommended_backend = "cpu" := by
  constructor
  · exact ((c3_degradation_amended true
      { nvidiaSmi := none, wmiGpus := [], lspciGpus := [], glxGpu := none }
      true).1 (by decide)).1
  · exact (c3_degradation_amended true
      { nvidiaSmi := none, wmiGpus := [], lspciGpus := [], glxGpu := none }
      true).2.2 rfl

/-! ### C4: resumable download correctness -/

/-- C4: download_with_resume issues its first request at the on-disk length
(a plain request when the file is absent, a ranged request from L when L > 0);
when the server rejects the ranged request the partial data is discarded, a
plain request restarts from byte zero and the result equals a fresh download;
and when the server honors ranged requests and the partial file is the length-
L prefix of the served file, the result is byte-identical to a fresh,
non-resumed download. -/
theorem c4_resume_correctness (srv : HttpServer)
    (content partialBytes : List Nat) :
    ((download_with_resume srv none).1 = [.plain] ∧
     (partialBytes.length > 0 →
       (download_with_resume srv (some partialBytes)).1.head? =
         some (.ranged partialBytes.length))) ∧
    (ServerRejectsRanges srv content → partialBytes.length > 0 →
      (download_with_resume srv (some partialBytes)).1 =
          [.ranged partialBytes.length, .plain] ∧
        (download_with_resume srv (some partialBytes)).2 = .ok content ∧
        (download_with_resume srv none).2 = .ok content) ∧
    (ServerHonorsRanges srv content →
      ∀ L, 0 < L → L ≤ content.length →
        (download_with_resume srv (some (content.take L))).2 = .ok content ∧
        (download_with_resume srv none).2 = .ok content) := by
  refine ⟨⟨?_, ?_⟩, ?_, ?_⟩
  · rcases hr : srv.respond none with ⟨b, body⟩
    cases b <;> simp [download_with_resume, hr]
  · intro hL
    rcases hr : srv.respond (some partialBytes.length) with ⟨b, body⟩
    rcases hr2 : srv.respond none with ⟨b2, body2⟩
    cases b <;> cases b2 <;> simp [download_with_resume, hL, hr, hr2]
  · rintro ⟨hrej, hplain⟩ hL
    have hr1 := hrej partialBytes.length
    rcases hq : srv.respond (some partialBytes.length) with ⟨b1, body1⟩
    rw [hq] at hr1
    simp only at hr1
    subst hr1
    refine ⟨?_, ?_, ?_⟩ <;> simp [download_with_resume, hL, hq, hplain]
  · rintro ⟨hran, hplain⟩ L hL hLe
    have hlen : (content.take L).length = L := by
      rw [List.length_take]
      exact Nat.min_eq_left hLe
    constructor
    · simp [download_with_resume, hlen, hL, hran L, List.take_append_drop]
    · simp [download_with_resume, hplain]

/-- C4 (witness): the theorem applied to a four-byte file resumed from its
two-byte prefix on a range-honoring server, and to a rejected resume that
restarts from zero; both acquisitions end with the full served file. -/
theorem c4_resume_correctness_witness :
    (download_with_resume
        ⟨fun r => match r with
          | some i => (true, List.drop i [1, 2, 3, 4])
          | none => (true, [1, 2, 3, 4])⟩
        (some (List.take 2 [1, 2, 3, 4]))).2 = .ok [1, 2, 3, 4] ∧
    (download_with_resume
        ⟨fun r => match r with
          | some _ => (false, [])
          | none => (true, [9, 9])⟩
        (some [5])).2 = .ok [9, 9] := by
  constructor
  · exact ((c4_resume_correctness _ [1, 2, 3, 4] []).2.2
      ⟨fun i => rfl, rfl⟩ 2 (by decide) (by decide)).1
  · exact ((c4_resume_correctness _ [9, 9] [5]).2.1
      ⟨fun i => rfl, rfl⟩ (by decide)).2.1

/-! ### C5: idempotent artifact acquisition -/

/-- C5: when the expected final marker executable of a toolchain component
already exists on disk, install_portable_tool performs no download and no
extraction (its event trace is empty) and returns success immediately; the
same marker makes is_tool_installed true. -/
theorem c5_acquire_idempotent (win : Bool) (disk : List String)
    (orc : ArtifactOracle) (key : String) (spec : ToolSpec)
    (hspec : lookupSpec win key = some spec)
    (hdisk : disk.contains ("ps_env/" ++ spec.executable_path) = true) :
    install_portable_tool win disk orc key = ([], .ok ()) ∧
    is_tool_installed win disk key = true := by
  constructor
  · unfold install_portable_tool
    rw [hspec]
    dsimp only
    rw [if_pos hdisk]
  · unfold is_tool_installed
    rw [hspec]
    exact hdisk

/-- C5 (witness): the theorem applied to the git component on Windows with
its marker executable present: acquisition returns success with an empty
event trace. -/
theorem c5_acquire_idempotent_witness :
    install_portable_tool true ["ps_env/git/cmd/git.exe"]
        ⟨true, true, true⟩ "git" = ([], .ok ()) ∧
    is_tool_installed true ["ps_env/git/cmd/git.exe"] "git" = true :=
  c5_acquire_idempotent true ["ps_env/git/cmd/git.exe"] ⟨true, true, true⟩
    "git"
    { name := "git", url := "https://files.portables.dev/git.7z",
      extract_path := "git", executable_path := "git/cmd/git.exe" }
    (by decide) (by decide)

/-! ### C2: bounded remediation and corruption recovery -/

theorem clone_after_corruption (env : CloneEnv) (pulls : Nat → Option String)
    (removeOk : Bool)
    (hp : env.pathExists = true) (hd : env.dotGitExists = true)
    (hu : env.url.isSome = true)
    (hcorr : (update_repository_with_fixes pulls removeOk).result =
      .error (.repository corruptedMsg)) :
    RepoEvent.cloneCmd ∈ (clone_or_update_repository env pulls removeOk).1 := by
  rcases env with ⟨pe, dg, url, cok⟩
  simp only at hp hd hu
  subst hp
  subst hd
  unfold clone_or_update_repository
  simp only [if_true]
  rw [hcorr]
  have hsig : subStr (errText (.repository corruptedMsg))
      "Repository corrupted (exit code 128)" = true := by decide
  simp only [hsig, if_true]
  rcases url with _ | u0
  · simp at hu
  · unfold cloneStep
    cases cok <;> simp

/-- C2 (counterexample): the removal of a corrupted tree is best-effort, so a
tree in state Corrupted can remain on disk.  When the first pull fails with
the exit-code-128 signal and std::fs::remove_dir_all fails, the failed
removal is only logged and update_repository_with_fixes still returns the
corruption error — the caller is told the tree was removed for re-cloning
while it is still on disk. -/
theorem c2_corruption_removal_counterexample :
    (update_repository_with_fixes
        (fun _ => some "Command failed with status: exit code: 128")
        false).result = .error (.repository corruptedMsg) ∧
    (update_repository_with_fixes
        (fun _ => some "Command failed with status: exit code: 128")
        false).removed = false := by
  exact ⟨by decide, by decide⟩

/-- C2 (amended): the remediation loop of update_repository_with_fixes
performs at most 3 pull attempts, its trace consists of pulls separated by
the fixed remediation pair (fetch origin; reset hard) optionally ending in
the directory-removal attempt, a corruption result (the exit-code-128 signal)
stops the retries and attempts the removal as its final action within the
same operation — the tree is actually gone exactly when remove_dir_all
succeeds, a failure being logged and swallowed — and
clone_or_update_repository reacts to the corruption result by proceeding to
re-clone instead of retrying. -/
theorem c2_corruption_recovery_amended (pulls : Nat → Option String)
    (removeOk : Bool) (env : CloneEnv) :
    pullCount (update_repository_with_fixes pulls removeOk).trace ≤ 3 ∧
    remediationShaped (update_repository_with_fixes pulls removeOk).trace =
      true ∧
    ((update_repository_with_fixes pulls removeOk).result =
        .error (.repository corruptedMsg) →
      (update_repository_with_fixes pulls removeOk).trace.getLast? =
        some RepoEvent.removeDir ∧
      (update_repository_with_fixes pulls removeOk).removed = removeOk) ∧
    (env.pathExists = true → env.dotGitExists = true → env.url.isSome = true →
      (update_repository_with_fixes pulls removeOk).result =
        .error (.repository corruptedMsg) →
      RepoEvent.cloneCmd ∈
        (clone_or_update_repository env pulls removeOk).1) := by
  have key : pullCount (update_repository_with_fixes pulls removeOk).trace ≤ 3 ∧
      remediationShaped (update_repository_with_fixes pulls removeOk).trace =
        true ∧
      ((update_repository_with_fixes pulls removeOk).result =
          .error (.repository corruptedMsg) →
        (update_repository_with_fixes pulls removeOk).trace.getLast? =
          some RepoEvent.removeDir ∧
        (update_repository_with_fixes pulls removeOk).removed = removeOk) := by
    unfold update_repository_with_fixes
    rcases h0 : pulls 0 with _ | m0
    · simp [update_fix_go, h0, pullCount, remediationShaped]
    · cases hb0 : subStr m0 "exit code: 128"
      · rcases h1 : pulls 1 with _ | m1
        · simp [update_fix_go, h0, hb0, h1, pullCount, remediationShaped]
        · cases hb1 : subStr m1 "exit code: 128"
          · rcases h2 : pulls 2 with _ | m2
            · simp [update_fix_go, h0, hb0, h1, hb1, h2, pullCount,
                remediationShaped]
            · cases hb2 : subStr m2 "exit code: 128"
              · simp [update_fix_go, h0, hb0, h1, hb1, h2, hb2, pullCount,
                  remediationShaped, corruptedMsg]
              · simp [update_fix_go, h0, hb0, h1, hb1, h2, hb2, pullCount,
                  remediationShaped]
          · simp [update_fix_go, h0, hb0, h1, hb1, pullCount,
              remediationShaped]
      · simp [update_fix_go, h0, hb0, pullCount, remediationShaped]
  exact ⟨key.1, key.2.1, key.2.2,
    fun hp hd hu hc => clone_after_corruption env pulls removeOk hp hd hu hc⟩

/-- C2 (witness): the amended theorem applied to a pull sequence whose first
attempt fails with the exit-code-128 signal, a succeeding remove_dir_all and
a clonable repository: the loop stops after one pull, the removal attempt is
its final action and succeeds, and the operation proceeds to re-clone. -/
theorem c2_corruption_recovery_amended_witness :
    pullCount (update_repository_with_fixes (fun i =>
        if i == 0 then some "Command failed with status: exit code: 128"
        else none) true).trace ≤ 3 ∧
    (update_repository_with_fixes (fun i =>
        if i == 0 then some "Command failed with status: exit code: 128"
        else none) true).trace.getLast? = some RepoEvent.removeDir ∧
    (update_repository_with_fixes (fun i =>
        if i == 0 then some "Command failed with status: exit code: 128"
        else none) true).removed = true ∧
    RepoEvent.cloneCmd ∈ (clone_or_update_repository
        ⟨true, true, some "https://github.com/acme/repo", true⟩
        (fun i =>
          if i == 0 then some "Command failed with status: exit code: 128"
          else none) true).1 := by
  have h := c2_corruption_recovery_amended
    (fun i =>
      if i == 0 then some "Command failed with status: exit code: 128"
      else none)
    true
    ⟨true, true, some "https://github.com/acme/repo", true⟩
  have hc : (update_repository_with_fixes (fun i =>
      if i == 0 then some "Command failed with status: exit code: 128"
      else none) true).result = .error (.repository corruptedMsg) := by decide
  exact ⟨h.1, (h.2.2.1 hc).1, (h.2.2.1 hc).2, h.2.2.2 rfl rfl rfl hc⟩


/-! ### C9: missing dependency manifest -/

/-- C9 (counterexample): a repository working tree with no server plan, no
pyproject.toml and no requirements file makes install_dependencies log and
return success — a missing manifest is not a hard error on this path. -/
theorem c9_missing_manifest_counterexample :
    install_dependencies noManifestEnv = .ok () := rfl

/-- C9 (amended): when no dependency manifest of any kind is found (no server
plan, no pyproject.toml, no requirements file), install_dependencies skips
dependency installation and returns success for every outcome of the other
sub-steps; the missing-manifest hard error exists only in
PipManager::install_requirements_with_uv_or_pip, whose guard rejects an
explicitly named requirements path that does not exist. -/
theorem c9_missing_manifest_amended (e : DepsEnv)
    (rest : Except PSError Unit) :
    (e.venvOk = true → e.serverPlan = none → e.pyprojectExtract = none →
      e.reqFileFound = false → install_dependencies e = .ok ()) ∧
    pip_install_requirements_guard false rest =
      .error (.repository "Requirements file not found") := by
  constructor
  · intro hv hs hp hr
    simp [install_dependencies, hv, hs, hp, hr]
  · rfl

/-- C9 (witness): the amended theorem applied to the manifest-free
environment and to a missing requirements path. -/
theorem c9_missing_manifest_amended_witness :
    install_dependencies noManifestEnv = .ok () ∧
    pip_install_requirements_guard false (.ok ()) =
      .error (.repository "Requirements file not found") :=
  ⟨(c9_missing_manifest_amended noManifestEnv (.ok ())).1 rfl rfl rfl rfl,
    (c9_missing_manifest_amended noManifestEnv (.ok ())).2⟩

/-! ### C10: the public update operation swallows VCS failures -/

/-- C10: for every existing repository directory, update_repository runs
fetch, reset (falling back to the master branch only when the main reset
fails), pull and the dependency reinstall, swallowing every sub-step failure,
and returns success; it returns an error exactly when the repository
directory does not exist. -/
theorem c10_update_swallows_failures (e : UpdateRepoEnv) :
    (e.dirExists = true →
      (update_repository e).2 = .ok () ∧
      (update_repository e).1 =
        [RepoEvent.fetchAll] ++
          (if e.resetMainOk then [RepoEvent.resetMain]
           else [RepoEvent.resetMain, RepoEvent.resetMaster]) ++
          [RepoEvent.pullCmd, RepoEvent.installDeps]) ∧
    (e.dirExists = false →
      (update_repository e).2 =
        .error (.repository "Repository not found")) := by
  constructor
  · intro h
    constructor <;> simp [update_repository, h]
  · intro h
    simp [update_repository, h]

/-- C10 (witness): the theorem applied to an existing repository whose every
git sub-step and dependency reinstall fail (still success), and to a missing
repository directory (error). -/
theorem c10_update_swallows_failures_witness :
    (update_repository ⟨true, false, false, false, false, false⟩).2 =
      .ok () ∧
    (update_repository ⟨false, true, true, true, true, true⟩).2 =
      .error (.repository "Repository not found") :=
  ⟨((c10_update_swallows_failures
      ⟨true, false, false, false, false, false⟩).1 rfl).1,
    (c10_update_swallows_failures ⟨false, true, true, true, true, true⟩).2 rfl⟩
